import Mathlib

/-!
Verification of the command interpreter of the portfolio terminal
(`runCommand` and its state in `src/pages/Index.tsx`).

The component state consists of the `useState` hooks the interpreter
touches: `cwd : TabType`, `selectedProject : ProjectKey | null`,
`selectedWorkFile : string | null` and `history : HistoryEntry[]`.
We model the string-valued state directly with `String` and the nullable
values with `Option`, and we model one call of `runCommand` as a pure
function from the old state (plus the random draw used by `fortune`) to
the new state.

JavaScript semantics captured here:
  * `cmd.trim().split(/\s+/)` returns `[""]` on a whitespace-only input
    (splitting the empty string yields one empty token), and otherwise
    the list of maximal non-whitespace runs of the trimmed input.
  * destructuring `const [base, arg] = …` makes `arg` `undefined` when
    there is no second token; interpolating `undefined` into a template
    literal prints the string `undefined`.
  * `arg && arg in projectsMeta` is false when `arg` is `undefined` or
    the empty string; the `in` operator walks the prototype chain, so it
    is true not only for the three declared keys but also for the
    property names `projectsMeta` (a plain object literal) inherits from
    `Object.prototype`, such as `toString`.
  * `Math.floor(Math.random() * fortunes.length)` is a value of
    `Fin fortunes.length`, which we thread in as an explicit argument.
-/

/-- The fixed section names, the `TABS` constant of the source. -/
def TABS : List String :=
  ["terminal", "aboutme", "skills", "workexperience", "projects", "contactme"]

/-- The keys of the static project registry `projectsMeta`. -/
def projectKeys : List String :=
  ["sentiment_analysis", "airbnb_analysis", "movie_recommender"]

/-- The fixed quotation list used by `fortune`. -/
def fortunes : List String :=
  ["Data is the new oil. â€“ Clive Humby",
   "In God we trust. All others must bring data. â€“ W. Edwards Deming",
   "Without big data, you are blind and deaf. â€“ Geoffrey Moore",
   "Torture the data, and it will confess to anything. â€“ Ronald Coase"]

/-- The fixed decorative block printed by `telnet towel.blinkenlights.nl`
(the `towelArt` template literal, with its escape sequences resolved). -/
def towelArt : String :=
  "
                              _..----.._
                          _.-'          '-._
                       .-'    .-''\"''-.     '-.
                     .'     /__________\\\\      '.
                    /      |            |       \\
                   /       |   ASCII    |        \\
                   |       |    ART!    |        |
                   |       '------------'        |
                   |                              |
                   |                              |
                   '._      TOWEL.BLINKENLIGHTS   |
                      '-._   .-''\"''-.        _.-'
                          '-._\\\\______/_..--'
"

/-- The fixed line printed by `help`. -/
def helpText : String :=
  "Commands: ls, cd [aboutme|skills|workexperience|projects|contactme], view <project_key>, fortune, telnet [towel.blinkenlights.nl|me], help"

/-- One scrollback entry (`HistoryEntry` of the source); `output = none`
models `output: null`. -/
structure HistoryEntry where
  cmd : String
  output : Option String
deriving DecidableEq, Repr

/-- The part of the component state that `runCommand` reads or writes. -/
structure TermState where
  cwd : String
  selectedProject : Option String
  selectedWorkFile : Option String
  history : List HistoryEntry
deriving DecidableEq, Repr

/-- The initial state of the `useState` hooks. -/
def initState : TermState :=
  { cwd := "terminal", selectedProject := none, selectedWorkFile := none,
    history := [] }

/-- The navigation part of the state (`currentSection`,
`selectedProjectKey`, `selectedWorkKey` in the specification). -/
def navOf (st : TermState) : String × Option String × Option String :=
  (st.cwd, st.selectedProject, st.selectedWorkFile)

/-- JavaScript `String.prototype.trim`. -/
def jsTrim (s : String) : String :=
  String.mk
    (((s.data.dropWhile Char.isWhitespace).reverse.dropWhile
        Char.isWhitespace).reverse)

/-- JavaScript `s.split(/\s+/)` for a trimmed string `s`: the maximal
non-whitespace runs of `s` (splitting removes the separators and a
trimmed string has no leading or trailing separator). -/
def jsSplitWs (s : String) : List String :=
  ((s.data.splitOnP Char.isWhitespace).filter (fun l => !l.isEmpty)).map
    String.mk

/-- `cmd.trim().split(/\s+/)` of the source: on a whitespace-only input
JavaScript splits the empty string and yields `[""]`. -/
def tokenize (cmd : String) : List String :=
  if jsTrim cmd = "" then [""] else jsSplitWs (jsTrim cmd)

/-- `base` of the destructuring `const [base, arg] = …`: the first token
(always present, because `tokenize` never returns `[]`). -/
def verbOf (cmd : String) : String :=
  (tokenize cmd).headD ""

/-- `arg` of the destructuring: the second token, `undefined` (`none`)
when the line has fewer than two tokens. -/
def argOf (cmd : String) : Option String :=
  (tokenize cmd)[1]?

/-- Template-literal interpolation of the possibly `undefined` `arg`:
JavaScript prints `undefined` as the string `undefined`. -/
def jsArgString : Option String → String
  | none => "undefined"
  | some a => a

/-- The property names a plain object literal inherits from
`Object.prototype`, which the JS `in` operator finds along the prototype
chain: the seven standard ones plus the five Annex B legacy accessors
present in browsers. -/
def objectPrototypeProps : List String :=
  ["constructor", "hasOwnProperty", "isPrototypeOf", "propertyIsEnumerable",
   "toLocaleString", "toString", "valueOf", "__defineGetter__",
   "__defineSetter__", "__lookupGetter__", "__lookupSetter__", "__proto__"]

/-- The guard `arg && arg in projectsMeta` of the early `view` branch:
`undefined` and `""` are falsy, and `arg in projectsMeta` holds for the
declared keys `projectKeys` and for the property names inherited from
`Object.prototype` (the `in` operator walks the prototype chain). -/
def viewCond : Option String → Bool
  | none => false
  | some a =>
    (decide (a ≠ "")) &&
      (projectKeys.contains a || objectPrototypeProps.contains a)

/-- The guard `(TABS as readonly string[]).includes(arg)` of the `cd`
branch; `includes(undefined)` is false. -/
def cdValid : Option String → Bool
  | none => false
  | some a => TABS.contains a

/-- One call of `runCommand cmd` of the source, as a pure state
transformer.  `randIdx` is `Math.floor(Math.random() * fortunes.length)`,
which always lies in `Fin fortunes.length` because `Math.random()` is in
`[0, 1)`.  Every branch (including the early-returning `view` branch)
appends exactly one history entry via `setHistory(h => [...h, …])`. -/
def runCommand (randIdx : Fin fortunes.length) (st : TermState)
    (cmd : String) : TermState :=
  if verbOf cmd = "view" ∧ viewCond (argOf cmd) then
    { st with selectedProject := argOf cmd,
              history := st.history ++ [{ cmd := cmd, output := none }] }
  else if verbOf cmd = "ls" then
    { st with history := st.history ++ [{ cmd := cmd, output := none }] }
  else if verbOf cmd = "cd" then
    if cdValid (argOf cmd) then
      { st with cwd := jsArgString (argOf cmd), selectedProject := none,
                selectedWorkFile := none,
                history := st.history ++ [{ cmd := cmd, output := none }] }
    else
      { st with history := st.history ++
          [{ cmd := cmd,
             output := some ("zsh: no such file or directory: " ++
               jsArgString (argOf cmd)) }] }
  else if verbOf cmd = "help" then
    { st with history := st.history ++
        [{ cmd := cmd, output := some helpText }] }
  else if verbOf cmd = "fortune" then
    { st with history := st.history ++
        [{ cmd := cmd, output := some (fortunes.get randIdx) }] }
  else if verbOf cmd = "telnet" then
    if argOf cmd = some "towel.blinkenlights.nl" then
      { st with history := st.history ++
          [{ cmd := cmd, output := some towelArt }] }
    else if argOf cmd = some "me" then
      { st with cwd := "contactme", selectedProject := none,
                selectedWorkFile := none,
                history := st.history ++ [{ cmd := cmd, output := none }] }
    else
      { st with history := st.history ++
          [{ cmd := cmd,
             output := some ("zsh: could not connect to host: " ++
               jsArgString (argOf cmd)) }] }
  else
    { st with history := st.history ++
        [{ cmd := cmd,
           output := some ("zsh: command not found: " ++ verbOf cmd) }] }

/-- A concrete random draw, for concrete evaluations. -/
def fortuneIdx0 : Fin fortunes.length :=
  ⟨0, by decide⟩

/-- Appending the empty string on the right is the identity. -/
theorem string_append_empty (s : String) : s ++ "" = s := by
  cases s with
  | mk l =>
    show String.mk (l ++ []) = String.mk l
    rw [List.append_nil]

/-- A whitespace-only line tokenizes to the single empty token, exactly
as `"".split(/\s+/)` does in JavaScript. -/
theorem tokenize_of_ws (cmd : String)
    (h : ∀ c ∈ cmd.data, c.isWhitespace) : tokenize cmd = [""] := by
  have hd : cmd.data.dropWhile Char.isWhitespace = [] :=
    List.dropWhile_eq_nil_iff.mpr h
  have ht : jsTrim cmd = "" := by
    rw [jsTrim, hd]
    rfl
  rw [tokenize, if_pos ht]

/-- C1 counterexample: on the whitespace-only input `" "` the interpreter
does not append an entry with absent output; the empty verb falls through
to the unknown-command branch, so the entry's output is
`"zsh: command not found: "`. -/
theorem C1_counterexample :
    (runCommand fortuneIdx0 initState " ").history =
      [{ cmd := " ", output := some "zsh: command not found: " }] ∧
    ¬ ((runCommand fortuneIdx0 initState " ").history =
      [{ cmd := " ", output := none }]) := by
  decide

/-- C1 (amended): for every input line consisting only of whitespace
(including the empty line), `runCommand` leaves the navigation state
unchanged and appends exactly one history entry recording the line, whose
output is `"zsh: command not found: "` (not absent): the trimmed empty
line splits to the single empty token, which reaches the unknown-command
branch. -/
theorem C1_whitespace_input (r : Fin fortunes.length) (st : TermState)
    (cmd : String) (h : ∀ c ∈ cmd.data, c.isWhitespace) :
    navOf (runCommand r st cmd) = navOf st ∧
    (runCommand r st cmd).history =
      st.history ++
        [{ cmd := cmd, output := some "zsh: command not found: " }] := by
  have ht : tokenize cmd = [""] := tokenize_of_ws cmd h
  have hv : verbOf cmd = "" := by rw [verbOf, ht]; rfl
  have ha : argOf cmd = none := by rw [argOf, ht]; rfl
  unfold runCommand
  rw [hv, ha]
  rw [if_neg (by decide), if_neg (by decide), if_neg (by decide),
    if_neg (by decide), if_neg (by decide), if_neg (by decide),
    string_append_empty]
  exact ⟨rfl, rfl⟩

/-- C1 witness: the amended statement at the concrete input `" "`. -/
theorem C1_witness :
    navOf (runCommand fortuneIdx0 initState " ") = navOf initState ∧
    (runCommand fortuneIdx0 initState " ").history =
      initState.history ++
        [{ cmd := " ", output := some "zsh: command not found: " }] :=
  C1_whitespace_input fortuneIdx0 initState " " (by decide)

/-- C2: for every prior state and every non-empty input line, one call of
the interpreter appends exactly one history entry, recording that line,
at the end of the scrollback; the previously appended entries are kept
unchanged and in their original order. -/
theorem C2_append_one (r : Fin fortunes.length) (st : TermState)
    (cmd : String) (_hne : cmd ≠ "") :
    ∃ e : HistoryEntry, e.cmd = cmd ∧
      (runCommand r st cmd).history = st.history ++ [e] := by
  clear _hne
  unfold runCommand
  repeat' split
  all_goals exact ⟨_, rfl, rfl⟩

/-- C2 witness: the statement at the concrete input `"ls"`. -/
theorem C2_witness :
    ∃ e : HistoryEntry, e.cmd = "ls" ∧
      (runCommand fortuneIdx0 initState "ls").history =
        initState.history ++ [e] :=
  C2_append_one fortuneIdx0 initState "ls" (by decide)

/-- C10: `cd` with no argument at all leaves the navigation state
unchanged and appends one entry whose output interpolates the undefined
argument as the literal string `undefined`. -/
theorem C10_cd_missing_arg (r : Fin fortunes.length) (st : TermState)
    (cmd : String) (htok : tokenize cmd = ["cd"]) :
    runCommand r st cmd =
      { st with history := st.history ++
          [{ cmd := cmd,
             output := some "zsh: no such file or directory: undefined" }] } := by
  have hv : verbOf cmd = "cd" := by rw [verbOf, htok]; rfl
  have ha : argOf cmd = none := by rw [argOf, htok]; rfl
  unfold runCommand
  rw [hv, ha]
  rw [if_neg (by decide), if_neg (by decide), if_pos rfl,
    if_neg (by decide)]
  rfl

/-- C10 witness: the statement at the concrete input `"cd"`. -/
theorem C10_witness :
    runCommand fortuneIdx0 initState "cd" =
      { initState with history := initState.history ++
          [{ cmd := "cd",
             output := some "zsh: no such file or directory: undefined" }] } :=
  C10_cd_missing_arg fortuneIdx0 initState "cd" (by decide)

/-- Membership in a string list makes `contains` true. -/
theorem contains_eq_true_of_mem {a : String} {l : List String}
    (h : a ∈ l) : l.contains a = true :=
  List.elem_iff.mpr h

/-- A true `contains` on a string list gives membership. -/
theorem mem_of_contains_eq_true {a : String} {l : List String}
    (h : l.contains a = true) : a ∈ l :=
  List.elem_iff.mp h

/-- C3: for every valid section name `X` and every starting state, a line
tokenizing to `cd X` sets `cwd` to `X`, resets both selections to `none`
(also when `X` already is the current section), and appends one entry
with absent output. -/
theorem C3_cd_valid (r : Fin fortunes.length) (st : TermState)
    (cmd X : String) (htok : tokenize cmd = ["cd", X]) (hX : X ∈ TABS) :
    runCommand r st cmd =
      { st with cwd := X, selectedProject := none, selectedWorkFile := none,
                history := st.history ++ [{ cmd := cmd, output := none }] } := by
  have hv : verbOf cmd = "cd" := by rw [verbOf, htok]; rfl
  have ha : argOf cmd = some X := by rw [argOf, htok]; rfl
  have hc : cdValid (some X) = true := by
    show TABS.contains X = true
    exact contains_eq_true_of_mem hX
  unfold runCommand
  rw [hv, ha]
  rw [if_neg (fun hco => absurd hco.1 (by decide)), if_neg (by decide),
    if_pos rfl, if_pos hc]
  rfl

/-- C3 witness: the statement at `"cd skills"` from the initial state. -/
theorem C3_witness :
    runCommand fortuneIdx0 initState "cd skills" =
      { initState with cwd := "skills", selectedProject := none,
                       selectedWorkFile := none,
                       history := initState.history ++
                         [{ cmd := "cd skills", output := none }] } :=
  C3_cd_valid fortuneIdx0 initState "cd skills" "skills" (by decide)
    (by decide)

/-- C4 counterexample: the claim fails in both of its parts.  `view nope`
(an argument that is not a project key) does not leave the scrollback
without output text: the line falls through to the unknown-command
branch, whose output is `"zsh: command not found: view"`.  And
`view toString` — `toString` is not a key of the project registry, but
the `in` operator finds it on `Object.prototype` — takes the guarded
early branch and changes the navigation state by setting the project
selection. -/
theorem C4_counterexample :
    ((runCommand fortuneIdx0 initState "view nope").history =
      [{ cmd := "view nope",
         output := some "zsh: command not found: view" }] ∧
    ¬ ((runCommand fortuneIdx0 initState "view nope").history =
      [{ cmd := "view nope", output := none }])) ∧
    (runCommand fortuneIdx0 initState "view toString" =
      { initState with selectedProject := some "toString",
                       history := [{ cmd := "view toString",
                                     output := none }] } ∧
    ¬ (navOf (runCommand fortuneIdx0 initState "view toString") =
      navOf initState)) := by
  decide

/-- C4 (amended): for every `view` line whose argument is absent, or is
neither a key of the project registry nor a property name inherited from
`Object.prototype` (which the JS `in` operator also finds), the
navigation state is unchanged and the appended entry's output is
`"zsh: command not found: view"` (the guarded early branch is skipped
and the `switch` has no `view` case, so the line reaches the
unknown-command branch). -/
theorem C4_view_invalid (r : Fin fortunes.length) (st : TermState)
    (cmd : String) (hv : verbOf cmd = "view")
    (hbad : ∀ a ∈ projectKeys, argOf cmd ≠ some a)
    (hproto : ∀ a ∈ objectPrototypeProps, argOf cmd ≠ some a) :
    navOf (runCommand r st cmd) = navOf st ∧
    (runCommand r st cmd).history = st.history ++
      [{ cmd := cmd, output := some "zsh: command not found: view" }] := by
  have hvc : viewCond (argOf cmd) = false := by
    cases hag : argOf cmd with
    | none => rfl
    | some a =>
      by_cases hae : a = ""
      · subst hae; rfl
      · have hmem : projectKeys.contains a = false := by
          cases hcb : projectKeys.contains a with
          | false => rfl
          | true =>
            exact absurd hag (hbad a (mem_of_contains_eq_true hcb))
        have hmem2 : objectPrototypeProps.contains a = false := by
          cases hcb : objectPrototypeProps.contains a with
          | false => rfl
          | true =>
            exact absurd hag (hproto a (mem_of_contains_eq_true hcb))
        show (decide (a ≠ "") &&
          (projectKeys.contains a || objectPrototypeProps.contains a)) = false
        rw [hmem, hmem2, Bool.false_or, Bool.and_false]
  unfold runCommand
  rw [hv]
  rw [if_neg (by simp [hvc]), if_neg (by decide), if_neg (by decide),
    if_neg (by decide), if_neg (by decide), if_neg (by decide)]
  exact ⟨rfl, rfl⟩

/-- C4 witness: the amended statement at the concrete input
`"view nope"`. -/
theorem C4_witness :
    navOf (runCommand fortuneIdx0 initState "view nope") =
      navOf initState ∧
    (runCommand fortuneIdx0 initState "view nope").history =
      initState.history ++
        [{ cmd := "view nope",
           output := some "zsh: command not found: view" }] :=
  C4_view_invalid fortuneIdx0 initState "view nope" (by decide) (by decide)
    (by decide)

/-- C5 counterexample: on `cd foo` the emitted line is
`"zsh: no such file or directory: foo"`, not the claimed
`"no such file or directory: foo"` (the `zsh: ` front matter is part of
the output). -/
theorem C5_counterexample :
    (runCommand fortuneIdx0 initState "cd foo").history =
      [{ cmd := "cd foo",
         output := some "zsh: no such file or directory: foo" }] ∧
    ¬ ((runCommand fortuneIdx0 initState "cd foo").history =
      [{ cmd := "cd foo",
         output := some "no such file or directory: foo" }]) := by
  decide

/-- C5 (amended): for every argument `X` that is not a valid section
name, a line tokenizing to `cd X` leaves the whole state (in particular
`cwd`) unchanged apart from appending one entry whose output is
`"zsh: no such file or directory: X"`. -/
theorem C5_cd_invalid (r : Fin fortunes.length) (st : TermState)
    (cmd X : String) (htok : tokenize cmd = ["cd", X]) (hX : X ∉ TABS) :
    runCommand r st cmd =
      { st with history := st.history ++
          [{ cmd := cmd,
             output := some ("zsh: no such file or directory: " ++ X) }] } := by
  have hv : verbOf cmd = "cd" := by rw [verbOf, htok]; rfl
  have ha : argOf cmd = some X := by rw [argOf, htok]; rfl
  have hc : cdValid (some X) = false := by
    show TABS.contains X = false
    cases hcb : TABS.contains X with
    | false => rfl
    | true => exact absurd (mem_of_contains_eq_true hcb) hX
  unfold runCommand
  rw [hv, ha]
  rw [if_neg (fun hco => absurd hco.1 (by decide)), if_neg (by decide),
    if_pos rfl, if_neg (by simp [hc])]
  rfl

/-- C5 witness: the amended statement at the concrete input `"cd foo"`. -/
theorem C5_witness :
    runCommand fortuneIdx0 initState "cd foo" =
      { initState with history := initState.history ++
          [{ cmd := "cd foo",
             output := some ("zsh: no such file or directory: " ++ "foo") }] } :=
  C5_cd_invalid fortuneIdx0 initState "cd foo" "foo" (by decide) (by decide)

/-- C6 counterexample: the unknown verb `foo` yields the output
`"zsh: command not found: foo"`, not the claimed exact string
`"command not found: foo"` (the `zsh: ` front matter is part of the
output). -/
theorem C6_counterexample :
    (runCommand fortuneIdx0 initState "foo").history =
      [{ cmd := "foo", output := some "zsh: command not found: foo" }] ∧
    ¬ ((runCommand fortuneIdx0 initState "foo").history =
      [{ cmd := "foo", output := some "command not found: foo" }]) := by
  decide

/-- C6 (amended): for every line whose verb (first token) is none of the
recognized commands and is not the empty string, the navigation state is
unchanged and the appended entry's output is
`"zsh: command not found: "` followed by the verb. -/
theorem C6_unknown_verb (r : Fin fortunes.length) (st : TermState)
    (cmd : String)
    (h : verbOf cmd ∉
      (["view", "ls", "cd", "help", "fortune", "telnet"] : List String))
    (_hne : verbOf cmd ≠ "") :
    runCommand r st cmd =
      { st with history := st.history ++
          [{ cmd := cmd,
             output := some ("zsh: command not found: " ++ verbOf cmd) }] } := by
  simp only [List.mem_cons, List.not_mem_nil, or_false, not_or] at h
  obtain ⟨h1, h2, h3, h4, h5, h6⟩ := h
  unfold runCommand
  rw [if_neg (fun hco => absurd hco.1 h1), if_neg h2, if_neg h3,
    if_neg h4, if_neg h5, if_neg h6]

/-- C6 witness: the amended statement at the concrete input `"foo"`. -/
theorem C6_witness :
    runCommand fortuneIdx0 initState "foo" =
      { initState with history := initState.history ++
          [{ cmd := "foo",
             output := some ("zsh: command not found: " ++ verbOf "foo") }] } :=
  C6_unknown_verb fortuneIdx0 initState "foo" (by decide) (by decide)

/-- C7: for every valid project key `K` and every starting state, a line
tokenizing to `view K` sets `selectedProject` to `K`, leaves `cwd` (and
the work-file selection) unchanged, and appends exactly one entry with
absent output. -/
theorem C7_view_valid (r : Fin fortunes.length) (st : TermState)
    (cmd K : String) (htok : tokenize cmd = ["view", K])
    (hK : K ∈ projectKeys) :
    runCommand r st cmd =
      { st with selectedProject := some K,
                history := st.history ++ [{ cmd := cmd, output := none }] } := by
  have hv : verbOf cmd = "view" := by rw [verbOf, htok]; rfl
  have ha : argOf cmd = some K := by rw [argOf, htok]; rfl
  have hne : K ≠ "" := by
    rintro rfl
    exact absurd hK (by decide)
  have hg : viewCond (some K) = true := by
    show (decide (K ≠ "") &&
      (projectKeys.contains K || objectPrototypeProps.contains K)) = true
    rw [decide_eq_true hne, contains_eq_true_of_mem hK, Bool.true_or,
      Bool.true_and]
  unfold runCommand
  rw [hv, ha, if_pos ⟨rfl, hg⟩]

/-- C7 witness: the statement at `"view sentiment_analysis"` from the
initial state. -/
theorem C7_witness :
    runCommand fortuneIdx0 initState "view sentiment_analysis" =
      { initState with selectedProject := some "sentiment_analysis",
                       history := initState.history ++
                         [{ cmd := "view sentiment_analysis",
                            output := none }] } :=
  C7_view_valid fortuneIdx0 initState "view sentiment_analysis"
    "sentiment_analysis" (by decide) (by decide)

/-- C8: from every starting state, a line tokenizing to
`telnet towel.blinkenlights.nl` emits the fixed decorative block and
changes nothing but the scrollback, and a line tokenizing to `telnet me`
sets `cwd` to the contact section, clears both selections, and appends
one entry with absent output. -/
theorem C8_telnet (r : Fin fortunes.length) (st : TermState)
    (cmdT cmdM : String)
    (h1 : tokenize cmdT = ["telnet", "towel.blinkenlights.nl"])
    (h2 : tokenize cmdM = ["telnet", "me"]) :
    runCommand r st cmdT =
      { st with history := st.history ++
          [{ cmd := cmdT, output := some towelArt }] } ∧
    runCommand r st cmdM =
      { st with cwd := "contactme", selectedProject := none,
                selectedWorkFile := none,
                history := st.history ++ [{ cmd := cmdM, output := none }] } := by
  constructor
  · have hv : verbOf cmdT = "telnet" := by rw [verbOf, h1]; rfl
    have ha : argOf cmdT = some "towel.blinkenlights.nl" := by
      rw [argOf, h1]; rfl
    unfold runCommand
    rw [hv, ha]
    rw [if_neg (by decide), if_neg (by decide), if_neg (by decide),
      if_neg (by decide), if_neg (by decide), if_pos rfl, if_pos rfl]
  · have hv : verbOf cmdM = "telnet" := by rw [verbOf, h2]; rfl
    have ha : argOf cmdM = some "me" := by rw [argOf, h2]; rfl
    unfold runCommand
    rw [hv, ha]
    rw [if_neg (by decide), if_neg (by decide), if_neg (by decide),
      if_neg (by decide), if_neg (by decide), if_pos rfl,
      if_neg (by decide), if_pos rfl]

/-- C8 witness: the statement at the concrete inputs
`"telnet towel.blinkenlights.nl"` and `"telnet me"`. -/
theorem C8_witness :
    runCommand fortuneIdx0 initState "telnet towel.blinkenlights.nl" =
      { initState with history := initState.history ++
          [{ cmd := "telnet towel.blinkenlights.nl",
             output := some towelArt }] } ∧
    runCommand fortuneIdx0 initState "telnet me" =
      { initState with cwd := "contactme", selectedProject := none,
                       selectedWorkFile := none,
                       history := initState.history ++
                         [{ cmd := "telnet me", output := none }] } :=
  C8_telnet fortuneIdx0 initState "telnet towel.blinkenlights.nl"
    "telnet me" (by decide) (by decide)

/-- C9: on a `fortune` line, for every value of the random draw the
output is the drawn member of the fixed quotation list and nothing but
the scrollback changes; and every quotation of the list is produced by
some value of the draw. -/
theorem C9_fortune (st : TermState) (cmd : String)
    (hb : verbOf cmd = "fortune") :
    (∀ r : Fin fortunes.length,
        runCommand r st cmd =
          { st with history := st.history ++
              [{ cmd := cmd, output := some (fortunes.get r) }] } ∧
        fortunes.get r ∈ fortunes) ∧
    (∀ q ∈ fortunes, ∃ r : Fin fortunes.length,
        runCommand r st cmd =
          { st with history := st.history ++
              [{ cmd := cmd, output := some q }] }) := by
  have hrun : ∀ r : Fin fortunes.length,
      runCommand r st cmd =
        { st with history := st.history ++
            [{ cmd := cmd, output := some (fortunes.get r) }] } := by
    intro r
    unfold runCommand
    rw [hb]
    rw [if_neg (fun hco => absurd hco.1 (by decide)), if_neg (by decide),
      if_neg (by decide), if_neg (by decide), if_pos rfl]
  refine ⟨fun r => ⟨hrun r, List.get_mem fortunes r.1 r.2⟩, ?_⟩
  intro q hq
  obtain ⟨n, hn⟩ := List.mem_iff_get.mp hq
  exact ⟨n, by rw [hrun n, hn]⟩

/-- C9 witness: the first part of the statement at the input `"fortune"`
and the draw `0`. -/
theorem C9_witness :
    runCommand fortuneIdx0 initState "fortune" =
      { initState with history := initState.history ++
          [{ cmd := "fortune",
             output := some (fortunes.get fortuneIdx0) }] } ∧
    fortunes.get fortuneIdx0 ∈ fortunes :=
  (C9_fortune initState "fortune" (by decide)).1 fortuneIdx0
